import Mathlib

/-!
Verification of the interactive terminal browser of the playbot repository
(src/tui.rs), against its natural-language specification.

The Session State, the Selection Model, the Controller (key dispatch of
run_app) and the Renderer are embedded shallowly, translated from
src/tui.rs.  The Track Store (Database.get_all_tracks / search_tracks,
consumed by tui.rs at its interface) is modelled as a record of two
fallible query functions; a Rust String buffer is modelled as List Char
(push = append one char, pop = drop last char), the u16 scroll offset as
a Nat with saturating arithmetic at bound 65535, and anyhow-style
fallibility as Except StorageError.
-/

set_option autoImplicit false

namespace Playbot

/-- A storage-layer failure reported by the Track Store (an anyhow error
in the Rust code, uninterpreted by the browser). -/
structure StorageError where
  msg : String
deriving DecidableEq, Repr

/-- One cached track record; from struct TrackInfo, src/db.rs lines 8-21.
duration_ms is an i64 and popularity an i32 in the source; both are
modelled as Int. -/
structure TrackInfo where
  track_id : String
  track_name : String
  artist_name : String
  album_name : String
  release_date : String
  duration_ms : Int
  popularity : Int
  genres : String
  lyrics : Option String
  producers : String
  writers : String
deriving DecidableEq, Repr

/-- The Track Store read interface consumed by the browser: the methods
Database.get_all_tracks and Database.search_tracks are called by
src/tui.rs (lines 42, 108, 110) at the store boundary; the browser treats
the store as a read-only source of ordered track sequences, each call
either returning a sequence or failing with a storage error. -/
structure Database where
  get_all_tracks : Except StorageError (List TrackInfo)
  search_tracks : List Char → Except StorageError (List TrackInfo)

/-- From enum InputMode, src/tui.rs lines 19-22. -/
inductive InputMode where
  | Normal
  | Editing
deriving DecidableEq, Repr

/-- From enum ViewMode, src/tui.rs lines 24-27. -/
inductive ViewMode where
  | List
  | Detail
deriving DecidableEq, Repr

/-- The key codes distinguished by run_app's dispatch (src/tui.rs lines
163-222): printable characters, arrows, Enter, Esc, Backspace; every
other key (falling into the wildcard arms) is Other.  Only key-press
events reach the dispatch. -/
inductive KeyCode where
  | Char (c : Char)
  | Down
  | Up
  | Left
  | Right
  | Enter
  | Esc
  | Backspace
  | Other
deriving DecidableEq, Repr

/-- The Session State; from struct App, src/tui.rs lines 29-38.  The
ratatui ListState is used by the code only through select/selected, so it
is embedded as its selected index (list_state : Option Nat). -/
structure App where
  db : Database
  tracks : List TrackInfo
  list_state : Option Nat
  search_query : List Char
  input_mode : InputMode
  view_mode : ViewMode
  should_quit : Bool
  detail_scroll : Nat

/-- App::new, src/tui.rs lines 41-58: load all tracks (propagating a load
failure), select index 0 when the list is non-empty, otherwise keep the
default empty selection. -/
def App.new (db : Database) : Except StorageError App :=
  match db.get_all_tracks with
  | .error e => .error e
  | .ok tracks =>
      .ok { db := db
            tracks := tracks
            list_state := if tracks.isEmpty then none else some 0
            search_query := []
            input_mode := .Normal
            view_mode := .List
            should_quit := false
            detail_scroll := 0 }

/-- App::scroll_down, src/tui.rs lines 60-62 (u16 saturating_add 1). -/
def App.scroll_down (a : App) : App :=
  { a with detail_scroll := min (a.detail_scroll + 1) 65535 }

/-- App::scroll_up, src/tui.rs lines 64-66 (u16 saturating_sub 1; Nat
subtraction is exactly the saturating subtraction). -/
def App.scroll_up (a : App) : App :=
  { a with detail_scroll := a.detail_scroll - 1 }

/-- App::reset_scroll, src/tui.rs lines 68-70. -/
def App.reset_scroll (a : App) : App :=
  { a with detail_scroll := 0 }

/-- App::next, src/tui.rs lines 72-87: no-op on an empty list, otherwise
advance the selection by one, wrapping from the last index to 0 (None
selects 0). -/
def App.next (a : App) : App :=
  if a.tracks.isEmpty then a
  else
    let i : Nat :=
      match a.list_state with
      | some i => if a.tracks.length - 1 ≤ i then 0 else i + 1
      | none => 0
    { a with list_state := some i }

/-- App::previous, src/tui.rs lines 89-104: no-op on an empty list,
otherwise step the selection back by one, wrapping from 0 to the last
index (None selects 0). -/
def App.previous (a : App) : App :=
  if a.tracks.isEmpty then a
  else
    let i : Nat :=
      match a.list_state with
      | some i => if i = 0 then a.tracks.length - 1 else i - 1
      | none => 0
    { a with list_state := some i }

/-- The query dispatch inside App::update_search, src/tui.rs lines
107-111: an empty query buffer asks the store for all tracks, a
non-empty one runs the text search. -/
def query_db (db : Database) (q : List Char) : Except StorageError (List TrackInfo) :=
  if q.isEmpty then db.get_all_tracks else db.search_tracks q

/-- App::update_search, src/tui.rs lines 106-120: replace tracks with the
store's answer (propagating a failure before any field is assigned, as
the ? operator does), then select index 0 when non-empty, else clear the
selection. -/
def App.update_search (a : App) : Except StorageError App :=
  match query_db a.db a.search_query with
  | .error e => .error e
  | .ok ts =>
      .ok { a with tracks := ts
                   list_state := if ts.isEmpty then none else some 0 }

/-- App::selected_track, src/tui.rs lines 122-124. -/
def App.selected_track (a : App) : Option TrackInfo :=
  a.list_state.bind fun i => a.tracks[i]?

/-- The Normal-mode arm of run_app's dispatch, src/tui.rs lines 164-204.
No Normal-mode handler can fail in the source (none uses the ? operator),
so this arm is a total function on the Session State; keys falling into
the wildcard arm of the source leave the state untouched. -/
def normal_step (a : App) (k : KeyCode) : App :=
  match k with
  | .Char c =>
      if c = 'q' then { a with should_quit := true }
      else if c = '/' then { a with input_mode := .Editing }
      else if c = 'j' then
        match a.view_mode with
        | .List => a.next
        | .Detail => a.scroll_down
      else if c = 'k' then
        match a.view_mode with
        | .List => a.previous
        | .Detail => a.scroll_up
      else if c = 'l' then
        match a.view_mode with
        | .Detail => a.next.reset_scroll
        | .List => a
      else if c = 'h' then
        match a.view_mode with
        | .Detail => a.previous.reset_scroll
        | .List => a
      else a
  | .Down =>
      match a.view_mode with
      | .List => a.next
      | .Detail => a.scroll_down
  | .Up =>
      match a.view_mode with
      | .List => a.previous
      | .Detail => a.scroll_up
  | .Right =>
      match a.view_mode with
      | .Detail => a.next.reset_scroll
      | .List => a
  | .Left =>
      match a.view_mode with
      | .Detail => a.previous.reset_scroll
      | .List => a
  | .Enter =>
      match a.view_mode with
      | .List => { a.reset_scroll with view_mode := ViewMode.Detail }
      | .Detail => { a.reset_scroll with view_mode := ViewMode.List }
  | .Esc => { a.reset_scroll with view_mode := ViewMode.List }
  | .Backspace => a
  | .Other => a

/-- The Editing-mode arm of run_app's dispatch, src/tui.rs lines 205-221:
a typed character or a backspace edits the query buffer and re-runs the
search, propagating a store failure with the ? operator; Enter and Esc
return to Normal mode; other keys are ignored. -/
def editing_step (a : App) (k : KeyCode) : Except StorageError App :=
  match k with
  | .Enter => .ok { a with input_mode := .Normal }
  | .Char c => App.update_search { a with search_query := a.search_query ++ [c] }
  | .Backspace => App.update_search { a with search_query := a.search_query.dropLast }
  | .Esc => .ok { a with input_mode := .Normal }
  | .Down => .ok a
  | .Up => .ok a
  | .Left => .ok a
  | .Right => .ok a
  | .Other => .ok a

/-- The key dispatch of run_app, src/tui.rs lines 163-222 (one key-press
event processed against the current Session State), switching on the
input mode. -/
def handle_key (a : App) (k : KeyCode) : Except StorageError App :=
  match a.input_mode with
  | .Normal => .ok (normal_step a k)
  | .Editing => editing_step a k

/-- The event loop run_app, src/tui.rs lines 151-231, run on a finite
script of key-press events: each key is processed by handle_key, an error
from a handler exits the loop carrying the error (the ? operator), and
the should_quit flag is checked once per iteration after event
processing.  The Rust function returns Ok(()); the model also carries the
final Session State so that it can be specified. -/
def run_app (a : App) : List KeyCode → Except StorageError App
  | [] => .ok a
  | k :: ks =>
      match handle_key a k with
      | .error e => .error e
      | .ok a' => if a'.should_quit then .ok a' else run_app a' ks

/-- The terminal-mode operations issued by run, src/tui.rs lines 127-149. -/
inductive TermOp where
  | enableRaw
  | enterAltScreen
  | enableMouse
  | disableRaw
  | leaveAltScreen
  | disableMouse
  | showCursor
deriving DecidableEq, Repr

/-- run, src/tui.rs lines 127-149: set up the terminal, build the App
(the ? on App::new propagates an initial-load failure immediately, before
the restoration block), otherwise run the event loop, restore the
terminal, and return the loop's result.  The model records the trace of
terminal operations actually issued alongside the returned value; the
terminal operations themselves are modelled as succeeding. -/
def run (db : Database) (keys : List KeyCode) : List TermOp × Except StorageError Unit :=
  let setup : List TermOp := [.enableRaw, .enterAltScreen, .enableMouse]
  match App.new db with
  | .error e => (setup, .error e)
  | .ok app =>
      let res := run_app app keys
      (setup ++ [.disableRaw, .leaveAltScreen, .disableMouse, .showCursor],
       match res with
       | .ok _ => .ok ()
       | .error e => .error e)

/-- Zero-padding to width 2 of the Rust format specifier {:02}, applied
by the detail renderer to the seconds field (non-negative values below 10
get a leading zero; anything else already fills the width). -/
def pad2 (n : Int) : String :=
  if 0 ≤ n ∧ n < 10 then "0" ++ toString n else toString n

/-- The duration line's m:ss formatting, src/tui.rs lines 351-355:
duration_ms / 60000 minutes and (duration_ms % 60000) / 1000 seconds,
with i64 division and remainder (truncated toward zero). -/
def formatDuration (ms : Int) : String :=
  toString (Int.tdiv ms 60000) ++ ":" ++ pad2 (Int.tdiv (Int.tmod ms 60000) 1000)

/-- Rust str::lines, used on the lyrics text at src/tui.rs line 391:
split on newline, drop a final empty segment produced by a trailing
newline, and strip one trailing carriage return from each line. -/
def rustLines (s : String) : List String :=
  if s = "" then []
  else
    let parts := s.splitOn "\n"
    let parts := if s.endsWith "\n" then parts.dropLast else parts
    parts.map fun l => if l.endsWith "\x0d" then l.dropRight 1 else l

/-- The lines of the detail pane for a selected track, src/tui.rs lines
327-394: the three mandatory header lines, release date only when
non-empty, formatted duration, popularity out of 100, then
genres/producers/writers only when non-empty, and the lyrics block (a
blank line, a Lyrics heading, a blank line, one line per source line)
only when lyrics are present. -/
def detailLines (t : TrackInfo) : List String :=
  ["Track: " ++ t.track_name,
   "Artist: " ++ t.artist_name,
   "Album: " ++ t.album_name]
  ++ (if t.release_date = "" then [] else ["Release Date: " ++ t.release_date])
  ++ ["Duration: " ++ formatDuration t.duration_ms,
      "Popularity: " ++ toString t.popularity ++ "/100"]
  ++ (if t.genres = "" then [] else ["Genres: " ++ t.genres])
  ++ (if t.producers = "" then [] else ["Producers: " ++ t.producers])
  ++ (if t.writers = "" then [] else ["Writers: " ++ t.writers])
  ++ (match t.lyrics with
      | some lyr => ["", "Lyrics:", ""] ++ rustLines lyr
      | none => [])

/-- The content pane of one frame: either the track list (items, block
title, highlighted index) or the detail pane (its lines and vertical
scroll), or the placeholder shown when no track is selected. -/
inductive ContentPane where
  | trackList (items : List (String × String)) (title : String) (highlighted : Option Nat)
  | detail (lines : List String) (scroll : Nat)
  | noTrack
deriving DecidableEq, Repr

/-- One rendered frame: the search pane's text and whether it is shown in
the Editing highlight style, the content pane, and the help pane's text. -/
structure Frame where
  search_text : String
  search_highlight : Bool
  content : ContentPane
  help : String
deriving DecidableEq, Repr

/-- render_search_box, src/tui.rs lines 253-278: a static hint in Normal
mode; the current query (in the highlighted style) in Editing mode. -/
def render_search_box (a : App) : String × Bool :=
  match a.input_mode with
  | .Normal => ("Press / to search", false)
  | .Editing => ("Searching: " ++ String.mk a.search_query, true)

/-- render_track_list, src/tui.rs lines 280-314: one item per track
(styled title then artist), a block title carrying the track count, and
the selection highlighted via the list state. -/
def render_track_list (a : App) : ContentPane :=
  .trackList
    (a.tracks.map fun t => (t.track_name ++ " ", t.artist_name))
    ("Tracks (" ++ toString a.tracks.length ++ ")")
    a.list_state

/-- render_track_detail, src/tui.rs lines 316-402: the placeholder
paragraph when no track is selected, otherwise the detail lines scrolled
by detail_scroll. -/
def render_track_detail (a : App) : ContentPane :=
  match a.selected_track with
  | none => .noTrack
  | some t => .detail (detailLines t) a.detail_scroll

/-- render_help, src/tui.rs lines 404-420: help text chosen by view mode
and, in List view, by input mode. -/
def render_help (a : App) : String :=
  match a.view_mode with
  | .List =>
      match a.input_mode with
      | .Normal => "j/k or Up/Down: Navigate | Enter: View Details | /: Search | q: Quit"
      | .Editing => "Type to search | Enter: Finish | Esc: Cancel"
  | .Detail => "j/k: Scroll | h/l: Prev/Next Song | Enter/Esc: Back to List | q: Quit"

/-- ui, src/tui.rs lines 233-251: the three-pane frame, with the content
pane chosen by the view mode. -/
def ui (a : App) : Frame :=
  { search_text := (render_search_box a).1
    search_highlight := (render_search_box a).2
    content :=
      match a.view_mode with
      | .List => render_track_list a
      | .Detail => render_track_detail a
    help := render_help a }

/-- The effect of one render pass on the Session State.  The bodies of ui
and the render functions (src/tui.rs lines 233-420) only read App fields
and build widgets; no App field is assigned anywhere in them, so the
state placed back after a draw is the state passed in. -/
def ui_after (a : App) : App := a

/-- The central selection invariant (spec section 8): the selection is
empty exactly when the result list is, and otherwise is a valid index. -/
def selectionOk (a : App) : Prop :=
  (a.list_state = none ↔ a.tracks = []) ∧
  ∀ i, a.list_state = some i → i < a.tracks.length

/-- In List view the detail scroll offset is zero: scrolling only happens
in Detail view, and every transition back to List view resets it. -/
def listViewScrollZero (a : App) : Prop :=
  a.view_mode = .List → a.detail_scroll = 0

/-- Reachable Session States: the state built by App::new at startup, and
anything obtained from a reachable state by one successfully handled
key-press event. -/
inductive Reachable : App → Prop where
  | init (db : Database) (a : App) : App.new db = .ok a → Reachable a
  | step (a a' : App) (k : KeyCode) :
      Reachable a → handle_key a k = .ok a' → Reachable a'

/-! Concrete stores and Session States used to instantiate the theorems. -/

/-- A storage error surfaced at initial load. -/
def errInit : StorageError := { msg := "failed to open database" }

/-- A storage error surfaced by a live-search query. -/
def errFail : StorageError := { msg := "database disk image is malformed" }

/-- A first sample track record. -/
def trackA : TrackInfo :=
  { track_id := "t-001"
    track_name := "Song A"
    artist_name := "Artist X"
    album_name := "Album One"
    release_date := "2019-12-06"
    duration_ms := 183000
    popularity := 62
    genres := "pop"
    lyrics := some "first line\nsecond line"
    producers := ""
    writers := "" }

/-- A second sample track record. -/
def trackB : TrackInfo :=
  { track_id := "t-002"
    track_name := "Song B"
    artist_name := "Artist Y"
    album_name := "Album Two"
    release_date := ""
    duration_ms := 245500
    popularity := 7
    genres := ""
    lyrics := none
    producers := "Producer P"
    writers := "Writer W" }

/-- A store holding zero tracks. -/
def dbEmpty : Database :=
  { get_all_tracks := .ok []
    search_tracks := fun _ => .ok [] }

/-- A store holding two tracks, every search answering with both. -/
def dbTwo : Database :=
  { get_all_tracks := .ok [trackA, trackB]
    search_tracks := fun _ => .ok [trackA, trackB] }

/-- A store whose initial load succeeds but whose searches fail. -/
def dbFlaky : Database :=
  { get_all_tracks := .ok [trackA, trackB]
    search_tracks := fun _ => .error errFail }

/-- A store whose initial load already fails. -/
def dbBadInit : Database :=
  { get_all_tracks := .error errInit
    search_tracks := fun _ => .error errInit }

/-- The startup state over the empty store (App::new dbEmpty). -/
def appEmpty : App :=
  { db := dbEmpty
    tracks := []
    list_state := none
    search_query := []
    input_mode := .Normal
    view_mode := .List
    should_quit := false
    detail_scroll := 0 }

/-- appEmpty after pressing Enter: the view mode has switched to Detail. -/
def appEmptyDetail : App := { appEmpty with view_mode := .Detail }

/-- appEmpty with a different store and quit flag but identical rendered
fields. -/
def appOther : App := { appEmpty with db := dbTwo, should_quit := true }

/-- The startup state over the two-track store (App::new dbTwo). -/
def appTwo : App :=
  { db := dbTwo
    tracks := [trackA, trackB]
    list_state := some 0
    search_query := []
    input_mode := .Normal
    view_mode := .List
    should_quit := false
    detail_scroll := 0 }

/-- appTwo in Editing mode (after pressing the search key). -/
def appTwoEdit : App := { appTwo with input_mode := .Editing }

/-- appTwo after Enter: Detail view of the first track. -/
def c3s1 : App := { appTwo with view_mode := .Detail }

/-- c3s1 after the next-item key: second track selected, scroll reset. -/
def c3s2 : App := { c3s1 with list_state := some 1 }

/-- c3s2 after one scroll-down keystroke. -/
def c3s3 : App := { c3s2 with detail_scroll := 1 }

/-- c3s3 after the search key: Editing mode, still Detail view, scroll 1. -/
def c3_before : App := { c3s3 with input_mode := .Editing }

/-- c3_before after typing one character: the re-query reset the
selection to 0 but left the stale scroll offset at 1. -/
def c3_after : App := { c3_before with search_query := ['x'], list_state := some 0 }

/-- The startup state over the flaky store (App::new dbFlaky). -/
def appFlaky : App :=
  { db := dbFlaky
    tracks := [trackA, trackB]
    list_state := some 0
    search_query := []
    input_mode := .Normal
    view_mode := .List
    should_quit := false
    detail_scroll := 0 }

/-- appFlaky after the search key: Editing mode over the flaky store. -/
def appFlakyEdit : App := { appFlaky with input_mode := .Editing }

/-! Helper lemmas on the Selection Model and the Controller. -/

theorem next_tracks (a : App) : a.next.tracks = a.tracks := by
  unfold App.next; split <;> rfl

theorem next_view_mode (a : App) : a.next.view_mode = a.view_mode := by
  unfold App.next; split <;> rfl

theorem next_detail_scroll (a : App) : a.next.detail_scroll = a.detail_scroll := by
  unfold App.next; split <;> rfl

theorem previous_tracks (a : App) : a.previous.tracks = a.tracks := by
  unfold App.previous; split <;> rfl

theorem previous_view_mode (a : App) : a.previous.view_mode = a.view_mode := by
  unfold App.previous; split <;> rfl

theorem previous_detail_scroll (a : App) : a.previous.detail_scroll = a.detail_scroll := by
  unfold App.previous; split <;> rfl

theorem next_empty (a : App) (h : a.tracks = []) : a.next = a := by
  unfold App.next; simp [h]

theorem next_none (a : App) (hne : a.tracks ≠ []) (hs : a.list_state = none) :
    a.next = { a with list_state := some 0 } := by
  unfold App.next
  simp [List.isEmpty_eq_false.mpr hne, hs]

theorem next_some (a : App) (i : Nat) (hne : a.tracks ≠ []) (hs : a.list_state = some i) :
    a.next = { a with list_state := some (if a.tracks.length - 1 ≤ i then 0 else i + 1) } := by
  unfold App.next
  simp [List.isEmpty_eq_false.mpr hne, hs]

theorem previous_empty (a : App) (h : a.tracks = []) : a.previous = a := by
  unfold App.previous; simp [h]

theorem previous_none (a : App) (hne : a.tracks ≠ []) (hs : a.list_state = none) :
    a.previous = { a with list_state := some 0 } := by
  unfold App.previous
  simp [List.isEmpty_eq_false.mpr hne, hs]

theorem previous_some (a : App) (i : Nat) (hne : a.tracks ≠ []) (hs : a.list_state = some i) :
    a.previous = { a with list_state := some (if i = 0 then a.tracks.length - 1 else i - 1) } := by
  unfold App.previous
  simp [List.isEmpty_eq_false.mpr hne, hs]

theorem next_selectionOk {a : App} (h : selectionOk a) : selectionOk a.next := by
  obtain ⟨h1, h2⟩ := h
  by_cases hne : a.tracks = []
  · rw [next_empty a hne]; exact ⟨h1, h2⟩
  · have hlen : 0 < a.tracks.length := List.length_pos.mpr hne
    cases hs : a.list_state with
    | none =>
        rw [next_none a hne hs]
        refine ⟨by simp [hne], ?_⟩
        intro i hi
        obtain rfl : (0 : Nat) = i := Option.some.inj hi
        show 0 < a.tracks.length
        exact hlen
    | some j =>
        have hj := h2 j hs
        rw [next_some a j hne hs]
        refine ⟨by simp [hne], ?_⟩
        intro i hi
        obtain rfl := Option.some.inj hi
        show (if a.tracks.length - 1 ≤ j then 0 else j + 1) < a.tracks.length
        split_ifs with hle
        · exact hlen
        · omega

theorem previous_selectionOk {a : App} (h : selectionOk a) : selectionOk a.previous := by
  obtain ⟨h1, h2⟩ := h
  by_cases hne : a.tracks = []
  · rw [previous_empty a hne]; exact ⟨h1, h2⟩
  · have hlen : 0 < a.tracks.length := List.length_pos.mpr hne
    cases hs : a.list_state with
    | none =>
        rw [previous_none a hne hs]
        refine ⟨by simp [hne], ?_⟩
        intro i hi
        obtain rfl : (0 : Nat) = i := Option.some.inj hi
        show 0 < a.tracks.length
        exact hlen
    | some j =>
        have hj := h2 j hs
        rw [previous_some a j hne hs]
        refine ⟨by simp [hne], ?_⟩
        intro i hi
        obtain rfl := Option.some.inj hi
        show (if j = 0 then a.tracks.length - 1 else j - 1) < a.tracks.length
        split_ifs with hz
        · omega
        · omega

theorem update_search_inv {a a' : App} (h : a.update_search = .ok a') :
    selectionOk a' ∧ a'.view_mode = a.view_mode ∧ a'.detail_scroll = a.detail_scroll ∧
    ∃ ts, query_db a.db a.search_query = .ok ts ∧
      a' = { a with tracks := ts, list_state := if ts.isEmpty then none else some 0 } := by
  unfold App.update_search at h
  cases hq : query_db a.db a.search_query <;> rw [hq] at h
  · cases h
  case ok ts =>
    obtain rfl := Except.ok.inj h
    refine ⟨?_, rfl, rfl, ts, rfl, rfl⟩
    cases ts with
    | nil =>
        refine ⟨by simp, ?_⟩
        intro i hi
        exact absurd (show (none : Option Nat) = some i from hi) (by simp)
    | cons t rest =>
        refine ⟨by simp, ?_⟩
        intro i hi
        obtain rfl : (0 : Nat) = i := Option.some.inj hi
        show 0 < (t :: rest).length
        simp

theorem new_inv {db : Database} {a : App} (h : App.new db = .ok a) :
    selectionOk a ∧ listViewScrollZero a := by
  unfold App.new at h
  cases hq : db.get_all_tracks <;> rw [hq] at h
  · cases h
  case ok ts =>
    obtain rfl := Except.ok.inj h
    refine ⟨?_, fun _ => rfl⟩
    cases ts with
    | nil =>
        refine ⟨by simp, ?_⟩
        intro i hi
        exact absurd (show (none : Option Nat) = some i from hi) (by simp)
    | cons t rest =>
        refine ⟨by simp, ?_⟩
        intro i hi
        obtain rfl : (0 : Nat) = i := Option.some.inj hi
        show 0 < (t :: rest).length
        simp

theorem normal_step_inv {a : App} (k : KeyCode)
    (hsel : selectionOk a) (hscr : listViewScrollZero a) :
    selectionOk (normal_step a k) ∧ listViewScrollZero (normal_step a k) := by
  have hnextScroll : a.view_mode = ViewMode.List → listViewScrollZero a.next :=
    fun hv _ => by rw [next_detail_scroll]; exact hscr hv
  have hprevScroll : a.view_mode = ViewMode.List → listViewScrollZero a.previous :=
    fun hv _ => by rw [previous_detail_scroll]; exact hscr hv
  have hdetailDown : a.view_mode = ViewMode.Detail → listViewScrollZero a.scroll_down :=
    fun hv hvv => absurd (hv.symm.trans (show a.view_mode = ViewMode.List from hvv)) (by decide)
  have hdetailUp : a.view_mode = ViewMode.Detail → listViewScrollZero a.scroll_up :=
    fun hv hvv => absurd (hv.symm.trans (show a.view_mode = ViewMode.List from hvv)) (by decide)
  cases k <;> simp only [normal_step]
  case Char c =>
    split_ifs with h1 h2 h3 h4 h5 h6
    · exact ⟨hsel, hscr⟩
    · exact ⟨hsel, hscr⟩
    · cases hv : a.view_mode
      · exact ⟨next_selectionOk hsel, hnextScroll hv⟩
      · exact ⟨hsel, hdetailDown hv⟩
    · cases hv : a.view_mode
      · exact ⟨previous_selectionOk hsel, hprevScroll hv⟩
      · exact ⟨hsel, hdetailUp hv⟩
    · cases hv : a.view_mode
      · exact ⟨hsel, hscr⟩
      · exact ⟨next_selectionOk hsel, fun _ => rfl⟩
    · cases hv : a.view_mode
      · exact ⟨hsel, hscr⟩
      · exact ⟨previous_selectionOk hsel, fun _ => rfl⟩
    · exact ⟨hsel, hscr⟩
  case Down =>
    cases hv : a.view_mode
    · exact ⟨next_selectionOk hsel, hnextScroll hv⟩
    · exact ⟨hsel, hdetailDown hv⟩
  case Up =>
    cases hv : a.view_mode
    · exact ⟨previous_selectionOk hsel, hprevScroll hv⟩
    · exact ⟨hsel, hdetailUp hv⟩
  case Right =>
    cases hv : a.view_mode
    · exact ⟨hsel, hscr⟩
    · exact ⟨next_selectionOk hsel, fun _ => rfl⟩
  case Left =>
    cases hv : a.view_mode
    · exact ⟨hsel, hscr⟩
    · exact ⟨previous_selectionOk hsel, fun _ => rfl⟩
  case Enter =>
    cases hv : a.view_mode
    · refine ⟨hsel, fun hvv => ?_⟩
      exact absurd (show ViewMode.Detail = ViewMode.List from hvv) (by decide)
    · exact ⟨hsel, fun _ => rfl⟩
  case Esc => exact ⟨hsel, fun _ => rfl⟩
  case Backspace => exact ⟨hsel, hscr⟩
  case Other => exact ⟨hsel, hscr⟩

theorem editing_step_inv {a a' : App} {k : KeyCode}
    (hsel : selectionOk a) (hscr : listViewScrollZero a)
    (h : editing_step a k = .ok a') :
    selectionOk a' ∧ listViewScrollZero a' := by
  cases k <;> simp only [editing_step] at h
  case Char c =>
    obtain ⟨h1, h2, h3, -⟩ := update_search_inv h
    refine ⟨h1, fun hv => ?_⟩
    rw [h2] at hv
    rw [h3]
    exact hscr hv
  case Backspace =>
    obtain ⟨h1, h2, h3, -⟩ := update_search_inv h
    refine ⟨h1, fun hv => ?_⟩
    rw [h2] at hv
    rw [h3]
    exact hscr hv
  case Enter => obtain rfl := Except.ok.inj h; exact ⟨hsel, hscr⟩
  case Esc => obtain rfl := Except.ok.inj h; exact ⟨hsel, hscr⟩
  case Down => obtain rfl := Except.ok.inj h; exact ⟨hsel, hscr⟩
  case Up => obtain rfl := Except.ok.inj h; exact ⟨hsel, hscr⟩
  case Left => obtain rfl := Except.ok.inj h; exact ⟨hsel, hscr⟩
  case Right => obtain rfl := Except.ok.inj h; exact ⟨hsel, hscr⟩
  case Other => obtain rfl := Except.ok.inj h; exact ⟨hsel, hscr⟩

theorem handle_key_inv {a a' : App} {k : KeyCode}
    (hsel : selectionOk a) (hscr : listViewScrollZero a)
    (h : handle_key a k = .ok a') :
    selectionOk a' ∧ listViewScrollZero a' := by
  unfold handle_key at h
  cases him : a.input_mode <;> rw [him] at h
  · obtain rfl := Except.ok.inj h
    exact normal_step_inv k hsel hscr
  · exact editing_step_inv hsel hscr h

theorem reachable_inv (a : App) (h : Reachable a) :
    selectionOk a ∧ listViewScrollZero a := by
  induction h with
  | init db a0 hnew => exact new_inv hnew
  | step a0 a1 k _ hstep ih => exact handle_key_inv ih.1 ih.2 hstep

theorem update_search_ok {a : App} {ts : List TrackInfo}
    (hq : query_db a.db a.search_query = .ok ts) :
    a.update_search =
      .ok { a with tracks := ts, list_state := if ts.isEmpty then none else some 0 } := by
  unfold App.update_search
  rw [hq]

theorem next_mod (a : App) (i : Nat) (hne : a.tracks ≠ []) (hs : a.list_state = some i)
    (hi : i < a.tracks.length) :
    a.next = { a with list_state := some ((i + 1) % a.tracks.length) } := by
  rw [next_some a i hne hs]
  by_cases hle : a.tracks.length - 1 ≤ i
  · have h1 : i + 1 = a.tracks.length := by omega
    simp [hle, h1, Nat.mod_self]
  · have h1 : (i + 1) % a.tracks.length = i + 1 := Nat.mod_eq_of_lt (by omega)
    simp [hle, h1]

theorem next_iter (a : App) (i : Nat) (hne : a.tracks ≠ []) (hs : a.list_state = some i)
    (hi : i < a.tracks.length) :
    ∀ n, (App.next^[n] a).tracks = a.tracks ∧
      (App.next^[n] a).list_state = some ((i + n) % a.tracks.length) := by
  intro n
  induction n with
  | zero =>
      refine ⟨rfl, ?_⟩
      simpa [Nat.mod_eq_of_lt hi] using hs
  | succ n ih =>
      obtain ⟨iht, ihs⟩ := ih
      have hlen : 0 < a.tracks.length := List.length_pos.mpr hne
      have hne2 : (App.next^[n] a).tracks ≠ [] := by rw [iht]; exact hne
      have hlt : (i + n) % a.tracks.length < a.tracks.length := Nat.mod_lt _ hlen
      have hmod := next_mod (App.next^[n] a) ((i + n) % a.tracks.length) hne2 ihs
        (by rw [iht]; exact hlt)
      rw [Function.iterate_succ_apply', hmod]
      refine ⟨iht, ?_⟩
      show some (((i + n) % a.tracks.length + 1) % (App.next^[n] a).tracks.length) =
        some ((i + (n + 1)) % a.tracks.length)
      rw [iht, Nat.mod_add_mod]
      rfl

theorem scroll_up_iter (a : App) (h : a.detail_scroll = 0) :
    ∀ n, (App.scroll_up^[n] a).detail_scroll = 0 := by
  intro n
  induction n with
  | zero => exact h
  | succ n ih =>
      rw [Function.iterate_succ_apply']
      show (App.scroll_up^[n] a).detail_scroll - 1 = 0
      omega

/-! The claims. -/

/-- C1: in every reachable Session State (the startup state and anything
produced by a sequence of successfully handled key events), the selected
index is None exactly when the result list is empty, and otherwise is a
strictly valid index into the current result list; since reachability is
closed under select next, select previous and the Editing-mode query
re-runs, every mutating operation preserves the invariant. -/
theorem C1_selection_invariant (a : App) (h : Reachable a) : selectionOk a :=
  (reachable_inv a h).1

/-- Witness for C1 at the startup state over the empty store. -/
theorem C1_selection_invariant_witness : selectionOk appEmpty :=
  C1_selection_invariant appEmpty (Reachable.init dbEmpty appEmpty rfl)

/-- C2 counterexample: from the reachable Editing-mode state over the
flaky store, typing one character makes the re-query fail, and the event
loop terminates with exactly that storage error (the source propagates it
with the ? operator), contradicting the claim that the failure does not
terminate the loop. -/
theorem C2_counterexample :
    Reachable appFlakyEdit ∧
    handle_key appFlakyEdit (KeyCode.Char 'x') = .error errFail ∧
    run_app appFlakyEdit [KeyCode.Char 'x'] = .error errFail :=
  ⟨Reachable.step appFlaky appFlakyEdit (KeyCode.Char '/')
      (Reachable.init dbFlaky appFlaky rfl) rfl,
   rfl, rfl⟩

/-- C2 amended: when the re-query triggered by a printable character in
Editing mode fails with a StorageError, the event loop terminates with
that error (it is propagated, not recovered); the failure happens before
results or the selection are assigned, so only the query buffer carries
the keystroke and the prior results and selection are never corrupted. -/
theorem C2_requery_failure (a : App) (c : Char) (e : StorageError) (ks : List KeyCode)
    (hm : a.input_mode = InputMode.Editing)
    (hq : query_db a.db (a.search_query ++ [c]) = .error e) :
    handle_key a (KeyCode.Char c) = .error e ∧
    App.update_search { a with search_query := a.search_query ++ [c] } = .error e ∧
    ({ a with search_query := a.search_query ++ [c] } : App).tracks = a.tracks ∧
    ({ a with search_query := a.search_query ++ [c] } : App).list_state = a.list_state ∧
    run_app a (KeyCode.Char c :: ks) = .error e := by
  have hup : App.update_search { a with search_query := a.search_query ++ [c] } = .error e := by
    unfold App.update_search
    have h2 : query_db ({ a with search_query := a.search_query ++ [c] } : App).db
        ({ a with search_query := a.search_query ++ [c] } : App).search_query = .error e := hq
    rw [h2]
  have hk : handle_key a (KeyCode.Char c) = .error e := by
    unfold handle_key
    rw [hm]
    exact hup
  have hrun : run_app a (KeyCode.Char c :: ks) = .error e := by
    unfold run_app
    rw [hk]
  exact ⟨hk, hup, rfl, rfl, hrun⟩

/-- Witness for C2's amended statement at the flaky store. -/
theorem C2_requery_failure_witness :
    handle_key appFlakyEdit (KeyCode.Char 'a') = .error errFail ∧
    run_app appFlakyEdit [KeyCode.Char 'a'] = .error errFail :=
  ⟨(C2_requery_failure appFlakyEdit 'a' errFail [] rfl rfl).1,
   (C2_requery_failure appFlakyEdit 'a' errFail [] rfl rfl).2.2.2.2⟩

/-- C3 counterexample: a reachable Detail-view Editing-mode state with
selection 1 and scroll offset 1 (reached by Enter, next-item, scroll-down,
search-key from startup over the two-track store); typing one character
re-runs the query, which moves the selection from 1 to 0 while the scroll
offset stays at its previous nonzero value 1 — so a query re-run changes
the selection without resetting scroll_offset. -/
theorem C3_counterexample :
    Reachable c3_before ∧
    c3_before.view_mode = ViewMode.Detail ∧
    c3_before.list_state = some 1 ∧
    c3_before.detail_scroll = 1 ∧
    handle_key c3_before (KeyCode.Char 'x') = .ok c3_after ∧
    c3_after.list_state = some 0 ∧
    c3_after.detail_scroll = 1 :=
  ⟨Reachable.step c3s3 c3_before (KeyCode.Char '/')
      (Reachable.step c3s2 c3s3 (KeyCode.Char 'j')
        (Reachable.step c3s1 c3s2 (KeyCode.Char 'l')
          (Reachable.step appTwo c3s1 KeyCode.Enter
            (Reachable.init dbTwo appTwo rfl) rfl) rfl) rfl) rfl,
   rfl, rfl, rfl, rfl, rfl, rfl⟩

/-- C3 amended: scroll_offset is reset to 0 whenever the view mode changes
to Detail (Enter in List view) and whenever the selection is changed by
the Detail-view cross-item keys (h/l); but the query re-run of Editing
mode resets the selection without touching scroll_offset, so a state whose
selection just changed can keep a stale nonzero scroll offset. -/
theorem C3_scroll_reset (a : App) (hm : a.input_mode = InputMode.Normal) :
    (a.view_mode = ViewMode.List →
      handle_key a KeyCode.Enter = .ok { a.reset_scroll with view_mode := ViewMode.Detail } ∧
      ({ a.reset_scroll with view_mode := ViewMode.Detail } : App).detail_scroll = 0) ∧
    (a.view_mode = ViewMode.Detail →
      handle_key a (KeyCode.Char 'l') = .ok a.next.reset_scroll ∧
      handle_key a (KeyCode.Char 'h') = .ok a.previous.reset_scroll ∧
      a.next.reset_scroll.detail_scroll = 0 ∧
      a.previous.reset_scroll.detail_scroll = 0) := by
  obtain ⟨db, tracks, ls, q, im, vm, sq, ds⟩ := a
  obtain rfl : im = InputMode.Normal := hm
  refine ⟨fun hv => ?_, fun hv => ?_⟩
  · obtain rfl : vm = ViewMode.List := hv
    exact ⟨rfl, rfl⟩
  · obtain rfl : vm = ViewMode.Detail := hv
    exact ⟨rfl, rfl, rfl, rfl⟩

/-- Witness for C3's amended statement over the two-track store. -/
theorem C3_scroll_reset_witness :
    handle_key appTwo KeyCode.Enter = .ok c3s1 ∧
    handle_key c3s1 (KeyCode.Char 'l') = .ok c3s2 :=
  ⟨((C3_scroll_reset appTwo rfl).1 rfl).1,
   ((C3_scroll_reset c3s1 rfl).2 rfl).1⟩

/-- C4: when the initial load fails, run propagates the error before the
restoration block, so none of disable raw mode / leave alternate screen /
release mouse capture / show cursor is executed (the setup operations
alone form the trace); by contrast, when the event loop itself returns an
error, the restoration does run before the error is returned.  This
contradicts the claim (and the spec's unconditional-restoration
requirement) on the initial-load-failure path. -/
theorem C4_restore_skipped_on_load_failure :
    run dbBadInit [] =
      ([TermOp.enableRaw, TermOp.enterAltScreen, TermOp.enableMouse], .error errInit) ∧
    TermOp.disableRaw ∉ (run dbBadInit []).1 ∧
    TermOp.leaveAltScreen ∉ (run dbBadInit []).1 ∧
    TermOp.showCursor ∉ (run dbBadInit []).1 ∧
    (run dbFlaky [KeyCode.Char '/', KeyCode.Char 'x']).2 = .error errFail ∧
    TermOp.disableRaw ∈ (run dbFlaky [KeyCode.Char '/', KeyCode.Char 'x']).1 ∧
    TermOp.showCursor ∈ (run dbFlaky [KeyCode.Char '/', KeyCode.Char 'x']).1 := by
  refine ⟨rfl, ?_, ?_, ?_, rfl, ?_, ?_⟩ <;> decide

/-- C5 counterexample: over the empty store, the startup state is
reachable with no results and no selection, but pressing Enter is not a
no-op on the Session State — the view mode switches from List to Detail,
so the state changes. -/
theorem C5_counterexample :
    Reachable appEmpty ∧
    appEmpty.tracks = [] ∧
    appEmpty.list_state = none ∧
    appEmpty.view_mode = ViewMode.List ∧
    handle_key appEmpty KeyCode.Enter = .ok appEmptyDetail ∧
    appEmptyDetail.view_mode = ViewMode.Detail ∧
    appEmptyDetail ≠ appEmpty :=
  ⟨Reachable.init dbEmpty appEmpty rfl, rfl, rfl, rfl, rfl, rfl,
   fun h => absurd (congrArg App.view_mode h) (by decide)⟩

/-- C5 amended: with zero tracks the browser starts with empty results and
no selection, and pressing Enter in that state does not fail and leaves
results, selection, query and quit flag unchanged — but it does switch the
view mode to Detail (resetting the scroll offset), where the detail pane
renders the placeholder rather than crashing. -/
theorem C5_empty_store_enter (a : App) (hm : a.input_mode = InputMode.Normal)
    (hv : a.view_mode = ViewMode.List) (ht : a.tracks = []) (hs : a.list_state = none) :
    handle_key a KeyCode.Enter = .ok { a.reset_scroll with view_mode := ViewMode.Detail } ∧
    ({ a.reset_scroll with view_mode := ViewMode.Detail } : App).tracks = [] ∧
    ({ a.reset_scroll with view_mode := ViewMode.Detail } : App).list_state = none ∧
    ({ a.reset_scroll with view_mode := ViewMode.Detail } : App).search_query = a.search_query ∧
    ({ a.reset_scroll with view_mode := ViewMode.Detail } : App).should_quit = a.should_quit ∧
    render_track_detail { a.reset_scroll with view_mode := ViewMode.Detail } =
      ContentPane.noTrack := by
  obtain ⟨db, tracks, ls, q, im, vm, sq, ds⟩ := a
  obtain rfl : im = InputMode.Normal := hm
  obtain rfl : vm = ViewMode.List := hv
  obtain rfl : tracks = ([] : List TrackInfo) := ht
  obtain rfl : ls = (none : Option Nat) := hs
  exact ⟨rfl, rfl, rfl, rfl, rfl, rfl⟩

/-- Witness for C5's amended statement at the empty store. -/
theorem C5_empty_store_enter_witness :
    handle_key appEmpty KeyCode.Enter = .ok appEmptyDetail ∧
    appEmptyDetail.list_state = none ∧
    render_track_detail appEmptyDetail = ContentPane.noTrack :=
  ⟨(C5_empty_store_enter appEmpty rfl rfl rfl rfl).1,
   (C5_empty_store_enter appEmpty rfl rfl rfl rfl).2.2.1,
   (C5_empty_store_enter appEmpty rfl rfl rfl rfl).2.2.2.2.2⟩

/-- C6: a query re-run triggered by a printable character or a backspace
in Editing mode replaces the result list wholesale with the store's
answer and selects index 0 when the answer is non-empty, None when it is
empty; an empty query buffer queries the store for all tracks. -/
theorem C6_requery (a : App) (c : Char) (ts : List TrackInfo)
    (hm : a.input_mode = InputMode.Editing) :
    (query_db a.db (a.search_query ++ [c]) = .ok ts →
      handle_key a (KeyCode.Char c) =
        .ok { a with search_query := a.search_query ++ [c], tracks := ts,
                     list_state := if ts.isEmpty then none else some 0 }) ∧
    (query_db a.db a.search_query.dropLast = .ok ts →
      handle_key a KeyCode.Backspace =
        .ok { a with search_query := a.search_query.dropLast, tracks := ts,
                     list_state := if ts.isEmpty then none else some 0 }) ∧
    query_db a.db [] = a.db.get_all_tracks := by
  obtain ⟨db, tracks, ls, q, im, vm, sq, ds⟩ := a
  obtain rfl : im = InputMode.Editing := hm
  exact ⟨fun hq => update_search_ok hq, fun hq => update_search_ok hq, rfl⟩

/-- Witness for C6 over the two-track store. -/
theorem C6_requery_witness :
    handle_key appTwoEdit (KeyCode.Char 'x') =
      .ok { appTwoEdit with search_query := ['x'], tracks := [trackA, trackB],
                            list_state := some 0 } ∧
    query_db dbTwo [] = dbTwo.get_all_tracks :=
  ⟨(C6_requery appTwoEdit 'x' [trackA, trackB] rfl).1 rfl,
   (C6_requery appTwoEdit 'x' [trackA, trackB] rfl).2.2⟩

/-- C7: on a non-empty result list with a valid starting selection,
applying select next length-many times returns the selection to its
starting value; select next wraps from the last index to 0 and select
previous wraps from 0 to the last index; both are no-ops on an empty
list. -/
theorem C7_wraparound (a : App) (i : Nat) :
    (a.tracks ≠ [] → a.list_state = some i → i < a.tracks.length →
      (App.next^[a.tracks.length] a).list_state = some i) ∧
    (a.tracks = [] → a.next = a ∧ a.previous = a) ∧
    (a.tracks ≠ [] → a.list_state = some (a.tracks.length - 1) →
      a.next.list_state = some 0) ∧
    (a.tracks ≠ [] → a.list_state = some 0 →
      a.previous.list_state = some (a.tracks.length - 1)) := by
  refine ⟨fun hne hs hi => ?_, fun he => ⟨next_empty a he, previous_empty a he⟩,
          fun hne hs => ?_, fun hne hs => ?_⟩
  · have h := (next_iter a i hne hs hi a.tracks.length).2
    rw [Nat.add_mod_right, Nat.mod_eq_of_lt hi] at h
    exact h
  · rw [next_some a (a.tracks.length - 1) hne hs]
    simp
  · rw [previous_some a 0 hne hs]
    simp

/-- Witness for C7: two iterations of select next over the two-track store
return to index 0; everything is a no-op on the empty store; wraparound at
both ends. -/
theorem C7_wraparound_witness :
    (App.next^[2] appTwo).list_state = some 0 ∧
    appEmpty.next = appEmpty ∧
    c3s2.next.list_state = some 0 ∧
    appTwo.previous.list_state = some 1 :=
  ⟨(C7_wraparound appTwo 0).1 (by decide) rfl (by decide),
   ((C7_wraparound appEmpty 0).2.1 rfl).1,
   (C7_wraparound c3s2 1).2.2.1 (by decide) rfl,
   (C7_wraparound appTwo 0).2.2.2 (by decide) rfl⟩

/-- C8: one render pass leaves every Session State field exactly as it
was (the render functions only read the state), and the frame is a
function of the rendered fields alone — two states agreeing on results,
selection, query, input mode, view mode and scroll offset render the same
frame, so rendering twice from the same state produces the same frame. -/
theorem C8_render_pure (a b : App)
    (ht : a.tracks = b.tracks) (hl : a.list_state = b.list_state)
    (hq : a.search_query = b.search_query) (him : a.input_mode = b.input_mode)
    (hvm : a.view_mode = b.view_mode) (hds : a.detail_scroll = b.detail_scroll) :
    ui_after a = a ∧ ui (ui_after a) = ui a ∧ ui a = ui b := by
  refine ⟨rfl, rfl, ?_⟩
  obtain ⟨db1, tr1, ls1, q1, im1, vm1, sq1, ds1⟩ := a
  obtain ⟨db2, tr2, ls2, q2, im2, vm2, sq2, ds2⟩ := b
  obtain rfl : tr1 = tr2 := ht
  obtain rfl : ls1 = ls2 := hl
  obtain rfl : q1 = q2 := hq
  obtain rfl : im1 = im2 := him
  obtain rfl : vm1 = vm2 := hvm
  obtain rfl : ds1 = ds2 := hds
  rfl

/-- Witness for C8: two states differing only in store handle and quit
flag render identical frames, and rendering does not change the state. -/
theorem C8_render_pure_witness :
    ui_after appEmpty = appEmpty ∧ ui appEmpty = ui appOther :=
  ⟨(C8_render_pure appEmpty appOther rfl rfl rfl rfl rfl rfl).1,
   (C8_render_pure appEmpty appOther rfl rfl rfl rfl rfl rfl).2.2⟩

/-- C9: the scroll offset is never negative in any reachable state (it is
a saturating u16, embedded as Nat, so its integer value is non-negative),
and iterating scroll up any number of times from offset 0 leaves it at 0
(the decrement saturates at the floor 0). -/
theorem C9_scroll_floor (a : App) (n : Nat) :
    (Reachable a → (0 : Int) ≤ (a.detail_scroll : Int)) ∧
    (a.detail_scroll = 0 → (App.scroll_up^[n] a).detail_scroll = 0) :=
  ⟨fun _ => Int.natCast_nonneg _, fun h => scroll_up_iter a h n⟩

/-- Witness for C9 at the startup state over the empty store. -/
theorem C9_scroll_floor_witness :
    ((0 : Int) ≤ (appEmpty.detail_scroll : Int)) ∧
    (App.scroll_up^[3] appEmpty).detail_scroll = 0 :=
  ⟨(C9_scroll_floor appEmpty 3).1 (Reachable.init dbEmpty appEmpty rfl),
   (C9_scroll_floor appEmpty 3).2 rfl⟩

/-- C10: in every reachable Session State in List view the scroll offset
is 0 (scrolling only happens in Detail view and every transition back to
List view resets it); hence the Normal-mode Esc handler — which re-assigns
both the view mode and the scroll offset — leaves such a state completely
unchanged. -/
theorem C10_list_view_scroll (a : App) (h : Reachable a)
    (hv : a.view_mode = ViewMode.List) :
    a.detail_scroll = 0 ∧
    (a.input_mode = InputMode.Normal → handle_key a KeyCode.Esc = .ok a) := by
  have hds : a.detail_scroll = 0 := (reachable_inv a h).2 hv
  refine ⟨hds, fun hm => ?_⟩
  obtain ⟨db, tracks, ls, q, im, vm, sq, ds⟩ := a
  obtain rfl : im = InputMode.Normal := hm
  obtain rfl : vm = ViewMode.List := hv
  obtain rfl : ds = 0 := hds
  rfl

/-- Witness for C10 at the startup state over the two-track store. -/
theorem C10_list_view_scroll_witness :
    appTwo.detail_scroll = 0 ∧ handle_key appTwo KeyCode.Esc = .ok appTwo :=
  ⟨(C10_list_view_scroll appTwo (Reachable.init dbTwo appTwo rfl) rfl).1,
   (C10_list_view_scroll appTwo (Reachable.init dbTwo appTwo rfl) rfl).2 rfl⟩

end Playbot
